import Mathlib

/-!
Verification of the two conan recipe files of this repository,
src/example/conanfile.py and src/test/conanfile.py.

Each file declares a single class `Recipe(ConanFile)` with three
class-level attributes (`settings`, `generators`, `requires`, all lists of
strings) and one method `layout` whose body is the single statement
`cmake_layout(self)`.  The embedding records, per file, the class
declaration (base classes, the three attribute lists, the method table
with bodies in a small statement syntax) and the module-level assignments
(there are none: both files contain only two imports and the class
definition).  The dynamic meaning of a method body is given by an
interpreter parameterised over the semantics of external calls such as
`cmake_layout`, which is imported from the conan tool and is not part of
this repository.
-/

/-- A statement of a recipe method body.  `call fn arg` is a call to an
externally imported function, e.g. `cmake_layout(self)`.  The remaining
constructors (conditional branch, raise, assignment, dynamic method call
on an object) are present so that their absence from the actual bodies is
expressible; no statement of either file uses them. -/
inductive Stmt where
  | call (fn arg : String)
  | raiseError (msg : String)
  | ifStmt (cond : String)
  | assign (target value : String)
  | methodCall (obj meth : String)
deriving DecidableEq

/-- A conan recipe class declaration, as written in a conanfile:
its name, base classes, the three class-level attribute lists, and its
methods (name paired with body). -/
structure RecipeClass where
  name : String
  bases : List String
  settings : List String
  generators : List String
  requires : List String
  methods : List (String × List Stmt)
deriving DecidableEq

/-- The class declared by src/example/conanfile.py. -/
def example_Recipe : RecipeClass :=
  ⟨"Recipe",
   ["ConanFile"],
   ["os", "compiler", "build_type", "arch"],
   ["CMakeToolchain", "CMakeDeps"],
   ["fmt/10.2.1",
    "perlinnoise/3.0.0",
    "range-v3/0.12.0",
    "stb/cci.20230920",
    "cli11/2.4.1"],
   [("layout", [Stmt.call "cmake_layout" "self"])]⟩

/-- The class declared by src/test/conanfile.py. -/
def test_Recipe : RecipeClass :=
  ⟨"Recipe",
   ["ConanFile"],
   ["os", "compiler", "build_type", "arch"],
   ["CMakeToolchain", "CMakeDeps"],
   ["fmt/10.2.1",
    "boost-ext-ut/1.1.9",
    "range-v3/0.12.0",
    "stb/cci.20230920"],
   [("layout", [Stmt.call "cmake_layout" "self"])]⟩

/-- Module-level assignments of src/example/conanfile.py: the file body is
two imports and the class definition, nothing else. -/
def example_moduleAssigns : List String := []

/-- Module-level assignments of src/test/conanfile.py: the file body is
two imports and the class definition, nothing else. -/
def test_moduleAssigns : List String := []

/-- Folder-placement fields of a recipe instance, configured by the
external layout machinery (source folder, build folder, and the folder
receiving generated build-integration files). -/
structure Folders where
  source : String
  build : String
  generators : String
deriving DecidableEq

/-- The state of a recipe instance: its three manifest attributes and its
folder-placement fields. -/
structure RecipeState where
  settings : List String
  generators : List String
  requires : List String
  folders : Folders
deriving DecidableEq

/-- A fresh instance of a recipe class: the instance carries the
class-level attribute lists; no folders are configured yet. -/
def RecipeClass.init (c : RecipeClass) : RecipeState :=
  ⟨c.settings, c.generators, c.requires, ⟨"", "", ""⟩⟩

/-- One step of a method body, parameterised over the semantics `ext` of
externally imported functions (fallible, since the external tool may
report errors). -/
def execStmt (ext : String → RecipeState → Except String RecipeState) :
    Stmt → RecipeState → Except String RecipeState
  | Stmt.call fn _, s => ext fn s
  | Stmt.raiseError m, _ => Except.error m
  | Stmt.ifStmt _, s => Except.ok s
  | Stmt.assign _ _, s => Except.ok s
  | Stmt.methodCall _ _, s => Except.ok s

/-- Sequential execution of a method body; an error aborts the rest. -/
def execBody (ext : String → RecipeState → Except String RecipeState) :
    List Stmt → RecipeState → Except String RecipeState
  | [], s => Except.ok s
  | stmt :: rest, s =>
    match execStmt ext stmt s with
    | Except.ok s' => execBody ext rest s'
    | Except.error e => Except.error e

/-- The body of the `layout` method of a recipe class (empty if none). -/
def RecipeClass.layoutBody (c : RecipeClass) : List Stmt :=
  (c.methods.lookup "layout").getD []

/-- Running the `layout` method of a recipe class on an instance state,
under external-call semantics `ext`. -/
def RecipeClass.runLayout (c : RecipeClass)
    (ext : String → RecipeState → Except String RecipeState)
    (s : RecipeState) : Except String RecipeState :=
  execBody ext c.layoutBody s

/-- External-call semantics in which `cmake_layout` is the pure function
`f` and every other external name fails. -/
def pureExt (f : RecipeState → RecipeState) :
    String → RecipeState → Except String RecipeState :=
  fun fn s => if fn = "cmake_layout" then Except.ok (f s) else Except.error fn

/-- Modelled from the spec: `cmake_layout` is imported from the external
conan tool and is not part of this repository; the spec describes it as
"a layout hook that configures output folder placement for generated
build-integration files".  It is modelled as updating only the
folder-placement fields of the instance. -/
def cmake_layout (self : RecipeState) : RecipeState :=
  ⟨self.settings, self.generators, self.requires, ⟨".", "build", "build"⟩⟩

/-- The name component of a `name/version` dependency string: everything
before the first slash. -/
def depName (d : String) : String :=
  ⟨d.data.takeWhile (fun c => c != '/')⟩

/-- The version component of a `name/version` dependency string:
everything after the first slash. -/
def depVersion (d : String) : String :=
  ⟨(d.data.dropWhile (fun c => c != '/')).drop 1⟩

/-- A dependency string follows the `name/version` convention: it contains
a slash, and both the name before the first slash and the version after it
are non-empty. -/
def isNameVersion (d : String) : Bool :=
  d.data.contains '/' && !(depName d).data.isEmpty && !(depVersion d).data.isEmpty

/-- A version component pins an exact version: it is non-empty and
contains none of the characters of conan's version-range, wildcard or
open-constraint syntax (brackets, comparison operators, wildcards,
alternatives, approximations, spaces). -/
def isExactVersion (v : String) : Bool :=
  !v.data.isEmpty &&
    v.data.all (fun c =>
      c != '[' && c != ']' && c != '*' && c != '>' && c != '<' &&
      c != '~' && c != '^' && c != '|' && c != ',' && c != ' ')

/-- A statement is a conditional branch. -/
def Stmt.isBranch : Stmt → Bool
  | Stmt.ifStmt _ => true
  | _ => false

/-- A statement raises an error. -/
def Stmt.isRaise : Stmt → Bool
  | Stmt.raiseError _ => true
  | _ => false

/-- A statement is a dynamically dispatched method call. -/
def Stmt.isDispatch : Stmt → Bool
  | Stmt.methodCall _ _ => true
  | _ => false

/-- All statements in all method bodies of a class. -/
def RecipeClass.bodyStmts (c : RecipeClass) : List Stmt :=
  (c.methods.map Prod.snd).flatten

/-- The body a `layout` method with a single `cmake_layout(self)` call
runs exactly the external `cmake_layout` on the instance. -/
lemma execBody_single_call (ext : String → RecipeState → Except String RecipeState)
    (s : RecipeState) :
    execBody ext [Stmt.call "cmake_layout" "self"] s = ext "cmake_layout" s := by
  cases h : ext "cmake_layout" s <;> simp [execBody, execStmt, h]

/-- The layout body of the example recipe is the single delegation. -/
lemma example_layoutBody_eq :
    example_Recipe.layoutBody = [Stmt.call "cmake_layout" "self"] := by decide

/-- The layout body of the test recipe is the single delegation. -/
lemma test_layoutBody_eq :
    test_Recipe.layoutBody = [Stmt.call "cmake_layout" "self"] := by decide

/-- Running `layout` on the example recipe is exactly the external
`cmake_layout` call. -/
lemma example_runLayout (ext : String → RecipeState → Except String RecipeState)
    (s : RecipeState) :
    example_Recipe.runLayout ext s = ext "cmake_layout" s := by
  unfold RecipeClass.runLayout
  rw [example_layoutBody_eq]
  exact execBody_single_call ext s

/-- Running `layout` on the test recipe is exactly the external
`cmake_layout` call. -/
lemma test_runLayout (ext : String → RecipeState → Except String RecipeState)
    (s : RecipeState) :
    test_Recipe.runLayout ext s = ext "cmake_layout" s := by
  unfold RecipeClass.runLayout
  rw [test_layoutBody_eq]
  exact execBody_single_call ext s

/-- C1: every entry of both recipes' requires lists is a `name/version`
string: it contains a slash splitting it into a non-empty library name and
a non-empty version string. -/
theorem requires_entries_are_name_version :
    example_Recipe.requires.all isNameVersion = true ∧
    test_Recipe.requires.all isNameVersion = true := by decide

/-- C2: each recipe defines exactly one method, `layout`, whose body is
the single directive `cmake_layout(self)`, and running `layout` on any
instance is extensionally equal to applying the external `cmake_layout`
to that instance. -/
theorem layout_is_single_cmake_layout_directive :
    example_Recipe.methods.map Prod.fst = ["layout"] ∧
    test_Recipe.methods.map Prod.fst = ["layout"] ∧
    example_Recipe.layoutBody = [Stmt.call "cmake_layout" "self"] ∧
    test_Recipe.layoutBody = [Stmt.call "cmake_layout" "self"] ∧
    (∀ ext s, example_Recipe.runLayout ext s = ext "cmake_layout" s) ∧
    (∀ ext s, test_Recipe.runLayout ext s = ext "cmake_layout" s) :=
  ⟨by decide, by decide, by decide, by decide, example_runLayout, test_runLayout⟩

/-- C3: both recipes declare exactly the four target platform axes, in
order: operating system, compiler, build type, architecture. -/
theorem settings_are_four_axes :
    example_Recipe.settings = ["os", "compiler", "build_type", "arch"] ∧
    test_Recipe.settings = ["os", "compiler", "build_type", "arch"] := by decide

/-- C4: both recipes declare exactly the generators CMakeToolchain and
CMakeDeps, in that order. -/
theorem generators_are_cmake_pair :
    example_Recipe.generators = ["CMakeToolchain", "CMakeDeps"] ∧
    test_Recipe.generators = ["CMakeToolchain", "CMakeDeps"] := by decide

/-- C5: neither recipe has failure detection or error reporting of its
own: `layout` is the only method either recipe defines, running it yields
exactly what the external `cmake_layout` call yields (so it errors iff
the external call errors), and no statement of either recipe is a branch
or a raise, so nothing validates dependency strings, platform axes or
version strings. -/
theorem no_own_error_handling :
    example_Recipe.methods.map Prod.fst = ["layout"] ∧
    test_Recipe.methods.map Prod.fst = ["layout"] ∧
    (∀ ext s e, example_Recipe.runLayout ext s = Except.error e ↔
      ext "cmake_layout" s = Except.error e) ∧
    (∀ ext s e, test_Recipe.runLayout ext s = Except.error e ↔
      ext "cmake_layout" s = Except.error e) ∧
    example_Recipe.bodyStmts.all (fun st => ! st.isRaise && ! st.isBranch) = true ∧
    test_Recipe.bodyStmts.all (fun st => ! st.isRaise && ! st.isBranch) = true :=
  ⟨by decide, by decide,
   fun ext s e => by rw [example_runLayout],
   fun ext s e => by rw [test_runLayout],
   by decide, by decide⟩

/-- C6: the recipes hold no mutable logic of their own: whenever the
external `cmake_layout` changes only folder-placement fields, running
`layout` on either recipe succeeds with that result and leaves the
settings, generators and requires attributes of the instance unchanged. -/
theorem layout_preserves_manifest_attrs
    (f : RecipeState → RecipeState)
    (h : ∀ t, (f t).settings = t.settings ∧ (f t).generators = t.generators ∧
      (f t).requires = t.requires)
    (s : RecipeState) :
    example_Recipe.runLayout (pureExt f) s = Except.ok (f s) ∧
    test_Recipe.runLayout (pureExt f) s = Except.ok (f s) ∧
    (f s).settings = s.settings ∧ (f s).generators = s.generators ∧
    (f s).requires = s.requires := by
  refine ⟨?_, ?_, (h s).1, (h s).2.1, (h s).2.2⟩
  · rw [example_runLayout]; rfl
  · rw [test_runLayout]; rfl

/-- Witness for C6 at the spec-modelled `cmake_layout` and the example
recipe's fresh instance. -/
theorem layout_preserves_manifest_attrs_witness :
    example_Recipe.runLayout (pureExt cmake_layout) example_Recipe.init
      = Except.ok (cmake_layout example_Recipe.init) ∧
    test_Recipe.runLayout (pureExt cmake_layout) example_Recipe.init
      = Except.ok (cmake_layout example_Recipe.init) ∧
    (cmake_layout example_Recipe.init).settings = example_Recipe.init.settings ∧
    (cmake_layout example_Recipe.init).generators = example_Recipe.init.generators ∧
    (cmake_layout example_Recipe.init).requires = example_Recipe.init.requires :=
  layout_preserves_manifest_attrs cmake_layout
    (fun _ => ⟨rfl, rfl, rfl⟩) example_Recipe.init

/-- C7 counterexample: it is false that neither Recipe class is declared
with a base class: both are declared with the base class ConanFile. -/
theorem recipe_base_class_cex :
    ¬ (example_Recipe.bases = [] ∧ test_Recipe.bases = []) := by decide

/-- C7 amended: the files contain no control flow, no global state and no
dynamic dispatch, and each Recipe class is declared with exactly one base
class, the externally imported ConanFile. -/
theorem recipes_inherit_only_conanfile :
    example_Recipe.bases = ["ConanFile"] ∧
    test_Recipe.bases = ["ConanFile"] ∧
    example_moduleAssigns = [] ∧
    test_moduleAssigns = [] ∧
    example_Recipe.bodyStmts.all (fun st => ! st.isBranch && ! st.isDispatch) = true ∧
    test_Recipe.bodyStmts.all (fun st => ! st.isBranch && ! st.isDispatch) = true := by
  decide

/-- C8: every dependency specification in both requires lists pins an
exact version: the component after the slash is a concrete version
string, with none of the version-range, wildcard or open-constraint
syntax. -/
theorem requires_versions_are_exact :
    example_Recipe.requires.all (fun d => isExactVersion (depVersion d)) = true ∧
    test_Recipe.requires.all (fun d => isExactVersion (depVersion d)) = true := by
  decide

/-- C9: the two recipes declare identical settings and generators lists,
and the dependencies whose library name occurs in both files are exactly
fmt, range-v3 and stb, with identical full `name/version` strings (hence
identical pinned versions) in both files. -/
theorem recipes_agree_on_shared_deps :
    example_Recipe.settings = test_Recipe.settings ∧
    example_Recipe.generators = test_Recipe.generators ∧
    example_Recipe.requires.filter
        (fun d => (test_Recipe.requires.map depName).contains (depName d))
      = ["fmt/10.2.1", "range-v3/0.12.0", "stb/cci.20230920"] ∧
    test_Recipe.requires.filter
        (fun d => (example_Recipe.requires.map depName).contains (depName d))
      = ["fmt/10.2.1", "range-v3/0.12.0", "stb/cci.20230920"] := by decide

/-- C10: within each recipe's requires list the library names before the
slash are pairwise distinct: no package is listed twice, in particular
none at two different versions. -/
theorem requires_names_nodup :
    (example_Recipe.requires.map depName).Nodup ∧
    (test_Recipe.requires.map depName).Nodup := by decide
